import Mathlib

/-!
Shallow embedding of `src/director_analysis.py` (IMT-542 director analysis
script) and verification of its specification.

Modelling conventions:
* A Python dict is an association list in insertion order; `List.lookup`
  mirrors `name in data` / `data[name]` (dict keys are unique).
* Python ints are `Int`; ratings (Python floats) are `Rat` — the script only
  copies rating values around and defaults a missing one to `0`, it never
  does float arithmetic on them.
* `print` output is returned as a list of message strings; `sys.exit(code)`
  and an uncaught exception are explicit outcomes.
* Python's `list.sort` is a stable sort; every stable sort agrees with
  `List.insertionSort` for the same total preorder, which we use.
-/

namespace DirectorAnalysis

/-- One value of the `decades` mapping of a director record: field `count`,
optional field `avg_rating` (the code tests `"avg_rating" in info`). -/
structure DecadeInfo where
  count : Int
  avg_rating : Option Rat
deriving DecidableEq, Repr

/-- One value of the top-level JSON mapping: fields `count_in_top1000`,
`avg_rating_top1000` and the `decades` sub-mapping. -/
structure DirectorInfo where
  count_in_top1000 : Int
  avg_rating_top1000 : Rat
  decades : List (String × DecadeInfo)
deriving DecidableEq, Repr

/-- The parsed JSON document: a mapping from director name to record,
in insertion order. -/
abbrev Dataset := List (String × DirectorInfo)

/-- An element of the list built by `analyze_directors`
(`{"name": ..., "count": ..., "avg_rating": ...}`). -/
structure DirectorEntry where
  name : String
  count : Int
  avg_rating : Rat
deriving DecidableEq, Repr

/-- An element of the list built by `analyze_decades`
(`{"decade": ..., "count": ..., "avg_rating": ...}`). -/
structure DecadeEntry where
  decade : String
  count : Int
  avg_rating : Rat
deriving DecidableEq, Repr

/-- Value of a decimal digit string, most significant first. -/
def digitsToNat (acc : Nat) : List Char → Nat
  | [] => acc
  | c :: cs => digitsToNat (acc * 10 + (c.toNat - 48)) cs

/-- Parses a nonempty all-digit character list (leading zeros allowed,
as in Python `int("01990")`). -/
def parseDigits : List Char → Option Nat
  | [] => none
  | cs => if cs.all Char.isDigit then some (digitsToNat 0 cs) else none

/-- Strips leading and trailing whitespace, as Python `int` does before
reading the number. -/
def pyTrim (cs : List Char) : List Char :=
  ((cs.dropWhile Char.isWhitespace).reverse.dropWhile Char.isWhitespace).reverse

/-- Models Python `int(s)` on a decimal string: surrounding whitespace and an
optional single sign are accepted; `none` is the `ValueError` case. (Digit
group underscores, a rarity irrelevant to decade labels, are not modelled.) -/
def pyInt? (s : String) : Option Int :=
  match pyTrim s.toList with
  | '-' :: rest => (parseDigits rest).map fun n => -(n : Int)
  | '+' :: rest => (parseDigits rest).map fun n => (n : Int)
  | cs => (parseDigits cs).map fun n => (n : Int)

/-- Python slice `l[:n]`: first `n` elements for `n ≥ 0`; for negative `n`,
everything but the last `|n|` elements. -/
def pySlice {α : Type} (l : List α) (n : Int) : List α :=
  l.take (if 0 ≤ n then n.toNat else l.length - (-n).toNat)

/-- The loop of `analyze_directors` (lines 27-33): keep directors with
`count_in_top1000 > 0`, projected to name / count / avg_rating, in
iteration (= insertion) order. -/
def directorsList (data : Dataset) : List DirectorEntry :=
  data.filterMap fun di =>
    if di.2.count_in_top1000 > 0 then
      some { name := di.1
             count := di.2.count_in_top1000
             avg_rating := di.2.avg_rating_top1000 }
    else none

/-- The sort order of `directors_list.sort(key=..., reverse=True)`:
descending by `count`. -/
def countGE (a b : DirectorEntry) : Prop := b.count ≤ a.count

instance : DecidableRel countGE := fun a b =>
  inferInstanceAs (Decidable (b.count ≤ a.count))

instance : IsTotal DirectorEntry countGE :=
  ⟨fun a b => Int.le_total b.count a.count⟩

instance : IsTrans DirectorEntry countGE :=
  ⟨fun _ _ _ h h' => le_trans h' h⟩

/-- `analyze_directors` (lines 22-39): filter, stable descending sort by
count, then the slice `directors_list[:top_n]`. -/
def analyze_directors (data : Dataset) (top_n : Int := 15) : List DirectorEntry :=
  pySlice (List.insertionSort countGE (directorsList data)) top_n

/-- Sort key of `analyze_decades` (line 60): `int(x["decade"])`. Every entry
reaching the sort has passed the `int(decade) > 0` filter, so the parse
cannot fail there; the default is never used. -/
def decadeKey (e : DecadeEntry) : Int := (pyInt? e.decade).getD 0

/-- The ascending order used on line 60. -/
def decadeLE (a b : DecadeEntry) : Prop := decadeKey a ≤ decadeKey b

instance : DecidableRel decadeLE := fun a b =>
  inferInstanceAs (Decidable (decadeKey a ≤ decadeKey b))

instance : IsTotal DecadeEntry decadeLE :=
  ⟨fun a b => Int.le_total (decadeKey a) (decadeKey b)⟩

instance : IsTrans DecadeEntry decadeLE :=
  ⟨fun _ _ _ h h' => le_trans h h'⟩

/-- The loop of `analyze_decades` (lines 51-57): skip the `"unknown"` label,
evaluate `int(decade)` (which can raise `ValueError`, the `Except.error`
case), keep positive decades, defaulting a missing `avg_rating` to `0`. -/
def decadesLoop : List (String × DecadeInfo) → Except String (List DecadeEntry)
  | [] => Except.ok []
  | (decade, info) :: rest =>
    if decade = "unknown" then decadesLoop rest
    else
      match pyInt? decade with
      | none =>
        Except.error ("invalid literal for int() with base 10: " ++ decade)
      | some v =>
        if v > 0 then
          match decadesLoop rest with
          | Except.error e => Except.error e
          | Except.ok tl =>
            Except.ok ({ decade := decade
                         count := info.count
                         avg_rating := info.avg_rating.getD 0 } :: tl)
        else decadesLoop rest

/-- `analyze_decades` (lines 41-61). Result: the printed messages, and
either an uncaught `ValueError` or the returned value (`none` models the
Python `None` of the not-found branch). -/
def analyze_decades (data : Dataset) (director_name : String) :
    List String × Except String (Option (List DecadeEntry)) :=
  match data.lookup director_name with
  | none =>
    (["Director " ++ director_name ++ " not found in data"], Except.ok none)
  | some director_data =>
    match decadesLoop director_data.decades with
    | Except.error e => ([], Except.error e)
    | Except.ok decades_data =>
      ([], Except.ok (some (List.insertionSort decadeLE decades_data)))

/-- Outcome of reading the data file, abstracting the filesystem:
either `FileNotFoundError` or the file's text. -/
inductive ReadResult where
  | fileNotFound
  | content (s : String)

/-- Observable outcome of `load_data`: `sys.exit code` after printing
`msgs`, or the parsed mapping. -/
inductive LoadOutcome where
  | exited (code : Nat) (msgs : List String)
  | ok (d : Dataset)
deriving DecidableEq

/-- `load_data` (lines 9-20), with the filesystem read and `json.load`
abstracted: a parse result of `none` is `json.JSONDecodeError`. -/
def load_data (json_path : String) (read : ReadResult)
    (parseJson : String → Option Dataset) : LoadOutcome :=
  match read with
  | ReadResult.fileNotFound =>
    LoadOutcome.exited 1
      ["Error: Could not find file at " ++ json_path,
       "Please make sure the file exists or specify the correct path using --data"]
  | ReadResult.content s =>
    match parseJson s with
    | none =>
      LoadOutcome.exited 1
        ["Error: File at " ++ json_path ++ " is not a valid JSON file"]
    | some d => LoadOutcome.ok d

/-- The analysis phase of `main` (lines 157-181), after a successful load:
runs `analyze_directors`, then, when a director was named, `analyze_decades`,
printing `No decade data available` when that returned `None` or an empty
list (Python truthiness of `if decades_data:`). The chart rendering is pure
display and is omitted; the result is the printed diagnostics and either an
uncaught exception or the process exit status `0`. -/
def main_run (data : Dataset) (director : Option String) (top_n : Int) :
    List String × Except String Nat :=
  let _top := analyze_directors data top_n
  match director with
  | none => ([], Except.ok 0)
  | some name =>
    match analyze_decades data name with
    | (msgs, Except.error e) => (msgs, Except.error e)
    | (msgs, Except.ok od) =>
      match od with
      | none => (msgs ++ ["No decade data available for " ++ name], Except.ok 0)
      | some dd =>
        if dd.isEmpty then
          (msgs ++ ["No decade data available for " ++ name], Except.ok 0)
        else (msgs, Except.ok 0)

/-- Models the call `analyze_directors(data, top_n)` against a store holding
the dataset: the body only reads the store. -/
def analyze_directors_call (top_n : Int) : StateM Dataset (List DirectorEntry) := do
  let data ← get
  pure (analyze_directors data top_n)

/-- Models the call `analyze_decades(data, director_name)` against a store
holding the dataset: the body only reads the store. -/
def analyze_decades_call (director_name : String) :
    StateM Dataset (List String × Except String (Option (List DecadeEntry))) := do
  let data ← get
  pure (analyze_decades data director_name)

/-- Two successive calls of `analyze_directors` on the same store. -/
def analyze_directors_twice (top_n : Int) :
    StateM Dataset (List DirectorEntry × List DirectorEntry) := do
  let r1 ← analyze_directors_call top_n
  let r2 ← analyze_directors_call top_n
  pure (r1, r2)

/-- True exactly when `analyze_decades` returned a list (found the director
and raised nothing). -/
def isOkSome : Except String (Option (List DecadeEntry)) → Bool
  | Except.ok (some _) => true
  | _ => false

/-- True exactly when an uncaught exception escaped. -/
def isError : Except String (Option (List DecadeEntry)) → Bool
  | Except.error _ => true
  | _ => false

/-- The list returned by `analyze_decades`, when there is one. -/
def resultList (r : List String × Except String (Option (List DecadeEntry))) :
    List DecadeEntry :=
  match r.2 with
  | Except.ok (some l) => l
  | _ => []

/-- The director record of the spec's worked example (§8): five movies,
rating 8.2, decade buckets 1990, 2000 and `"unknown"`. -/
def exInfo : DirectorInfo :=
  { count_in_top1000 := 5
    avg_rating_top1000 := 8.2
    decades := [("1990", { count := 3, avg_rating := some 8.0 }),
                ("2000", { count := 2, avg_rating := some 8.5 }),
                ("unknown", { count := 1, avg_rating := none })] }

/-- The concrete dataset of the spec's worked example (§8). -/
def exData : Dataset := [("A", exInfo)]

/-- A record whose decade labels `"1990"` and `"01990"` are distinct dict
keys with the same numeric value (`int("01990") == 1990`). -/
def dupInfo : DirectorInfo :=
  { count_in_top1000 := 1
    avg_rating_top1000 := 7
    decades := [("1990", { count := 1, avg_rating := none }),
                ("01990", { count := 2, avg_rating := none })] }

/-- Dataset exercising duplicate numeric decade values. -/
def dupData : Dataset := [("D", dupInfo)]

/-- A record with a decade label that is neither `"unknown"` nor an integer
literal, so `int(decade)` raises `ValueError`. -/
def badInfo : DirectorInfo :=
  { count_in_top1000 := 2
    avg_rating_top1000 := 7
    decades := [("19x0", { count := 1, avg_rating := none })] }

/-- Dataset exercising the unparseable decade label. -/
def badData : Dataset := [("B", badInfo)]

example : analyze_directors exData 1 =
    [{ name := "A", count := 5, avg_rating := 8.2 }] := by rfl

example : analyze_decades exData "A" =
    ([], Except.ok (some
      [{ decade := "1990", count := 3, avg_rating := 8.0 },
       { decade := "2000", count := 2, avg_rating := 8.5 }])) := by rfl

example : pyInt? "01990" = some 1990 := by rfl
example : pyInt? "-3" = some (-3) := by rfl
example : pyInt? "abc" = none := by rfl
example : pyInt? "" = none := by rfl
example : pyInt? " 12 " = some 12 := by rfl
example : pySlice [1,2,3,4] (-1) = [1,2,3] := by rfl
example : pySlice [1,2,3,4] 2 = [1,2] := by rfl
example : pySlice [1,2,3,4] (-9) = [] := by rfl

/-! ### Generic lemmas: stability of `insertionSort`, slices -/

/-- Inserting an element not satisfying `p` leaves the `p`-filtered list
unchanged. -/
theorem filter_orderedInsert_of_neg {α : Type} (r : α → α → Prop) [DecidableRel r]
    (p : α → Bool) (a : α) (ha : p a = false) (l : List α) :
    (l.orderedInsert r a).filter p = l.filter p := by
  induction l with
  | nil => simp [List.orderedInsert, ha]
  | cons b l ih =>
    rw [List.orderedInsert]
    by_cases h : r a b
    · rw [if_pos h, List.filter_cons, ha]
      simp
    · rw [if_neg h, List.filter_cons, List.filter_cons]
      cases hpb : p b <;> simp [ih]

/-- Inserting an element satisfying `p` that is not passed over by any
`p`-element puts it at the head of the `p`-filtered list. -/
theorem filter_orderedInsert_of_pos {α : Type} (r : α → α → Prop) [DecidableRel r]
    (p : α → Bool) (a : α) (ha : p a = true) (l : List α)
    (h : ∀ y ∈ l, ¬ r a y → p y = false) :
    (l.orderedInsert r a).filter p = a :: l.filter p := by
  induction l with
  | nil => simp [List.orderedInsert, ha]
  | cons b l ih =>
    rw [List.orderedInsert]
    by_cases hr : r a b
    · rw [if_pos hr, List.filter_cons, ha]
      simp
    · have hb : p b = false := h b (by simp) hr
      rw [if_neg hr, List.filter_cons, hb, List.filter_cons, hb]
      simp only [Bool.false_eq_true, if_false]
      exact ih fun y hy hry => h y (by simp [hy]) hry

/-- Stability of insertion sort: when all elements satisfying `p` are
mutually unordered-swappable (any element some `p`-element fails to pass
over also fails `p`), sorting does not change the `p`-filtered sublist. -/
theorem filter_insertionSort_eq {α : Type} (r : α → α → Prop) [DecidableRel r]
    (p : α → Bool) (H : ∀ a b, p a = true → ¬ r a b → p b = false) (l : List α) :
    (List.insertionSort r l).filter p = l.filter p := by
  induction l with
  | nil => rfl
  | cons b l ih =>
    rw [List.insertionSort]
    cases hpb : p b with
    | false =>
      rw [filter_orderedInsert_of_neg r p b hpb, ih, List.filter_cons, hpb]
      simp
    | true =>
      rw [filter_orderedInsert_of_pos r p b hpb _
          (fun y _ hry => H b y hpb hry), ih, List.filter_cons, hpb]
      simp

/-- Dropping from the reverse, reversed, is a `take`. -/
theorem reverse_drop_eq_take_reverse {α : Type} :
    ∀ (r : List α) (k : Nat), (r.drop k).reverse = r.reverse.take (r.length - k)
  | [], k => by simp
  | x :: r, 0 => by
    rw [List.drop_zero, Nat.sub_zero, List.take_of_length_le (by simp)]
  | x :: r, k + 1 => by
    rw [List.drop_succ_cons, List.reverse_cons, List.length_cons,
      Nat.succ_sub_succ, reverse_drop_eq_take_reverse r k,
      List.take_append_of_le_length (by simp [Nat.sub_le])]

/-- The spec's description of a negative-`n` slice: the list with its last
`k` entries dropped. -/
def dropLastN {α : Type} (l : List α) (k : Nat) : List α :=
  (l.reverse.drop k).reverse

/-- Dropping the last `k` entries is taking the first `length - k`. -/
theorem dropLastN_eq_take {α : Type} (l : List α) (k : Nat) :
    dropLastN l k = l.take (l.length - k) := by
  unfold dropLastN
  rw [reverse_drop_eq_take_reverse l.reverse k, List.reverse_reverse,
    List.length_reverse]

/-! ### Lemmas about the embedded functions -/

/-- Every entry the `analyze_directors` loop keeps has a positive count. -/
theorem count_pos_of_mem_directorsList {data : Dataset} {e : DirectorEntry}
    (he : e ∈ directorsList data) : 0 < e.count := by
  simp only [directorsList, List.mem_filterMap] at he
  obtain ⟨a, _, h⟩ := he
  by_cases hc : a.2.count_in_top1000 > 0
  · rw [if_pos hc, Option.some.injEq] at h
    rw [← h]
    exact hc
  · rw [if_neg hc] at h
    cases h

/-- Step equation of `decadesLoop`: the `"unknown"` bucket is skipped. -/
theorem decadesLoop_cons_unknown (i : DecadeInfo) (rest : List (String × DecadeInfo)) :
    decadesLoop (("unknown", i) :: rest) = decadesLoop rest := by
  rw [decadesLoop, if_pos rfl]

/-- Step equation of `decadesLoop`: an unparseable label raises. -/
theorem decadesLoop_cons_err {d : String} (i : DecadeInfo)
    (rest : List (String × DecadeInfo)) (hd : ¬ d = "unknown")
    (hn : pyInt? d = none) :
    decadesLoop ((d, i) :: rest) =
      Except.error ("invalid literal for int() with base 10: " ++ d) := by
  rw [decadesLoop, if_neg hd, hn]

/-- Step equation of `decadesLoop`: a positive decade is kept. -/
theorem decadesLoop_cons_pos {d : String} (i : DecadeInfo)
    (rest : List (String × DecadeInfo)) (hd : ¬ d = "unknown") {v : Int}
    (hv : pyInt? d = some v) (h0 : v > 0) :
    decadesLoop ((d, i) :: rest) =
      Except.map
        (fun tl => { decade := d, count := i.count,
                     avg_rating := i.avg_rating.getD 0 } :: tl)
        (decadesLoop rest) := by
  rw [decadesLoop, if_neg hd, hv]
  dsimp only
  rw [if_pos h0]
  cases decadesLoop rest <;> rfl

/-- Step equation of `decadesLoop`: a non-positive decade is skipped. -/
theorem decadesLoop_cons_nonpos {d : String} (i : DecadeInfo)
    (rest : List (String × DecadeInfo)) (hd : ¬ d = "unknown") {v : Int}
    (hv : pyInt? d = some v) (h0 : ¬ v > 0) :
    decadesLoop ((d, i) :: rest) = decadesLoop rest := by
  rw [decadesLoop, if_neg hd, hv]
  dsimp only
  rw [if_neg h0]

/-- Every entry the `analyze_decades` loop keeps comes from a decade record
of the director, is not the `"unknown"` bucket, parses to a positive decade,
and defaults a missing `avg_rating` to `0`. -/
theorem mem_decadesLoop {ds : List (String × DecadeInfo)} {out : List DecadeEntry}
    (h : decadesLoop ds = Except.ok out) {e : DecadeEntry} (he : e ∈ out) :
    e.decade ≠ "unknown" ∧ (∃ v, pyInt? e.decade = some v ∧ 0 < v) ∧
      ∃ info, (e.decade, info) ∈ ds ∧ e.count = info.count ∧
        e.avg_rating = info.avg_rating.getD 0 := by
  induction ds generalizing out with
  | nil =>
    rw [decadesLoop, Except.ok.injEq] at h
    rw [← h] at he
    cases he
  | cons di rest ih =>
    obtain ⟨d, i⟩ := di
    by_cases hd : d = "unknown"
    · subst hd
      rw [decadesLoop_cons_unknown] at h
      obtain ⟨h1, h2, info, hmem, h3, h4⟩ := ih h he
      exact ⟨h1, h2, info, List.mem_cons_of_mem _ hmem, h3, h4⟩
    · cases hint : pyInt? d with
      | none =>
        rw [decadesLoop_cons_err i rest hd hint] at h
        cases h
      | some v =>
        by_cases hv : v > 0
        · rw [decadesLoop_cons_pos i rest hd hint hv] at h
          cases hrest : decadesLoop rest with
          | error msg => rw [hrest] at h; cases h
          | ok tl =>
            rw [hrest] at h
            simp only [Except.map, Except.ok.injEq] at h
            rw [← h] at he
            rcases List.mem_cons.mp he with he₁ | he₂
            · subst he₁
              exact ⟨hd, ⟨v, hint, hv⟩, i, List.mem_cons_self _ _, rfl, rfl⟩
            · obtain ⟨h1, h2, info, hmem, h3, h4⟩ := ih hrest he₂
              exact ⟨h1, h2, info, List.mem_cons_of_mem _ hmem, h3, h4⟩
        · rw [decadesLoop_cons_nonpos i rest hd hint hv] at h
          obtain ⟨h1, h2, info, hmem, h3, h4⟩ := ih h he
          exact ⟨h1, h2, info, List.mem_cons_of_mem _ hmem, h3, h4⟩

/-- When every decade label of the record is `"unknown"` or parseable, the
loop raises nothing. -/
theorem decadesLoop_ok_of_labels :
    ∀ ds : List (String × DecadeInfo),
      (∀ p ∈ ds, p.1 = "unknown" ∨ (pyInt? p.1).isSome) →
      ∃ out, decadesLoop ds = Except.ok out
  | [], _ => ⟨[], rfl⟩
  | (d, i) :: rest, h => by
    have hrest := decadesLoop_ok_of_labels rest fun p hp => h p (by simp [hp])
    obtain ⟨out, hout⟩ := hrest
    by_cases hd : d = "unknown"
    · subst hd
      rw [decadesLoop_cons_unknown]
      exact ⟨out, hout⟩
    · rcases h (d, i) (by simp) with hu | hs
      · exact absurd hu hd
      · cases hint : pyInt? d with
        | none => rw [hint] at hs; cases hs
        | some v =>
          by_cases hv : v > 0
          · rw [decadesLoop_cons_pos i rest hd hint hv, hout]
            exact ⟨_, rfl⟩
          · rw [decadesLoop_cons_nonpos i rest hd hint hv]
            exact ⟨out, hout⟩

/-- A decade label that is neither `"unknown"` nor parseable makes the loop
raise `ValueError`. -/
theorem decadesLoop_error_of_bad :
    ∀ ds : List (String × DecadeInfo), ∀ p ∈ ds,
      p.1 ≠ "unknown" → pyInt? p.1 = none →
      ∃ msg, decadesLoop ds = Except.error msg
  | [], p, hp, _, _ => absurd hp (List.not_mem_nil p)
  | (d, i) :: rest, p, hp, hne, hnone => by
    rcases List.mem_cons.mp hp with hp₁ | hp₂
    · subst hp₁
      rw [decadesLoop_cons_err i rest hne hnone]
      exact ⟨_, rfl⟩
    · have hrest := decadesLoop_error_of_bad rest p hp₂ hne hnone
      obtain ⟨msg, hmsg⟩ := hrest
      by_cases hd : d = "unknown"
      · subst hd
        rw [decadesLoop_cons_unknown]
        exact ⟨msg, hmsg⟩
      · cases hint : pyInt? d with
        | none =>
          rw [decadesLoop_cons_err i rest hd hint]
          exact ⟨_, rfl⟩
        | some v =>
          by_cases hv : v > 0
          · rw [decadesLoop_cons_pos i rest hd hint hv, hmsg]
            exact ⟨msg, rfl⟩
          · rw [decadesLoop_cons_nonpos i rest hd hint hv]
            exact ⟨msg, hmsg⟩

/-- A list sorted by `decadeLE` whose numeric keys are pairwise distinct is
sorted by the strict key order. -/
theorem sorted_key_lt_of_sorted_le {l : List DecadeEntry}
    (hs : List.Sorted decadeLE l)
    (hne : l.Pairwise fun a b => decadeKey a ≠ decadeKey b) :
    List.Sorted (fun a b => decadeKey a < decadeKey b) l := by
  induction l with
  | nil => exact List.sorted_nil
  | cons a l ih =>
    rcases List.sorted_cons.mp hs with ⟨h1, h2⟩
    rcases List.pairwise_cons.mp hne with ⟨h3, h4⟩
    exact List.sorted_cons.mpr
      ⟨fun b hb => lt_of_le_of_ne (h1 b hb) (h3 b hb), ih h2 h4⟩

/-! ### The claims -/

/-- C1: for every dataset and every non-negative `n`, `analyze_directors`
returns at most `n` entries, every returned entry has `count_in_top1000 > 0`,
the result is sorted non-increasing by count, and when at most `n` directors
qualify the whole sorted qualifying list is returned, not padded. -/
theorem C1_top_directors_bound_filter_sort (data : Dataset) (n : Int)
    (hn : 0 ≤ n) :
    ((analyze_directors data n).length : Int) ≤ n ∧
    (∀ e ∈ analyze_directors data n, 0 < e.count) ∧
    List.Sorted countGE (analyze_directors data n) ∧
    (((directorsList data).length : Int) ≤ n →
      analyze_directors data n =
        List.insertionSort countGE (directorsList data)) := by
  have hres : analyze_directors data n =
      (List.insertionSort countGE (directorsList data)).take n.toNat := by
    simp only [analyze_directors, pySlice, if_pos hn]
  refine ⟨?_, ?_, ?_, ?_⟩
  · rw [hres]
    have h1 : ((List.insertionSort countGE (directorsList data)).take
        n.toNat).length ≤ n.toNat := by
      rw [List.length_take]
      exact min_le_left _ _
    omega
  · intro e he
    rw [hres] at he
    exact count_pos_of_mem_directorsList
      ((List.perm_insertionSort countGE (directorsList data)).mem_iff.mp
        (List.take_subset _ _ he))
  · rw [hres]
    exact (List.sorted_insertionSort countGE (directorsList data)).sublist
      (List.take_sublist _ _)
  · intro hlen
    rw [hres]
    apply List.take_of_length_le
    rw [List.length_insertionSort]
    omega

/-- Witness for C1 at the worked-example dataset with `n = 1`. -/
theorem C1_top_directors_bound_filter_sort_witness :
    ((analyze_directors exData 1).length : Int) ≤ 1 :=
  (C1_top_directors_bound_filter_sort exData 1 (by decide)).1

/-- C2 counterexample to strict ascending order: the decade labels `"1990"`
and `"01990"` are distinct dict keys with equal numeric value 1990, so the
returned entries are not sorted strictly ascending by numeric decade. -/
theorem C2_strict_sort_counterexample :
    (analyze_decades dupData "D").2 = Except.ok (some
      [{ decade := "1990", count := 1, avg_rating := 0 },
       { decade := "01990", count := 2, avg_rating := 0 }]) ∧
    ¬ List.Sorted (fun a b => decadeKey a < decadeKey b)
      (resultList (analyze_decades dupData "D")) := by
  refine ⟨rfl, fun hs => ?_⟩
  have hs' : List.Sorted (fun a b => decadeKey a < decadeKey b)
      [{ decade := "1990", count := 1, avg_rating := 0 },
       { decade := "01990", count := 2, avg_rating := 0 }] := hs
  have h := List.rel_of_sorted_cons hs'
    { decade := "01990", count := 2, avg_rating := 0 } (by simp)
  exact absurd h (by decide)

/-- C2 (amended): every returned entry avoids the `"unknown"` label, has a
positive numeric decade, and defaults a missing `avg_rating` to `0`; the
result is sorted non-decreasing by numeric decade, and strictly ascending
whenever the numeric decade values are pairwise distinct. -/
theorem C2_decades_view_amended (data : Dataset) (name : String)
    (dd : DirectorInfo) (hdd : data.lookup name = some dd)
    (l : List DecadeEntry)
    (hl : (analyze_decades data name).2 = Except.ok (some l)) :
    (∀ e ∈ l, e.decade ≠ "unknown" ∧
      (∃ v, pyInt? e.decade = some v ∧ 0 < v) ∧
      ∃ info, (e.decade, info) ∈ dd.decades ∧ e.count = info.count ∧
        e.avg_rating = info.avg_rating.getD 0) ∧
    List.Sorted decadeLE l ∧
    (l.Pairwise (fun a b => decadeKey a ≠ decadeKey b) →
      List.Sorted (fun a b => decadeKey a < decadeKey b) l) := by
  simp only [analyze_decades, hdd] at hl
  cases hout : decadesLoop dd.decades with
  | error msg => rw [hout] at hl; cases hl
  | ok dl =>
    rw [hout] at hl
    simp only [Except.ok.injEq, Option.some.injEq] at hl
    subst hl
    refine ⟨?_, ?_, ?_⟩
    · intro e he
      exact mem_decadesLoop hout
        ((List.perm_insertionSort decadeLE dl).mem_iff.mp he)
    · exact List.sorted_insertionSort decadeLE dl
    · exact fun hne => sorted_key_lt_of_sorted_le
        (List.sorted_insertionSort decadeLE dl) hne

/-- Witness for the amended C2 at the worked-example dataset. -/
theorem C2_decades_view_amended_witness :
    List.Sorted decadeLE
      [{ decade := "1990", count := 3, avg_rating := 8.0 },
       { decade := "2000", count := 2, avg_rating := 8.5 }] :=
  (C2_decades_view_amended exData "A" exInfo rfl
    [{ decade := "1990", count := 3, avg_rating := 8.0 },
     { decade := "2000", count := 2, avg_rating := 8.5 }] rfl).2.1

/-- C3: `load_data` prints a diagnostic and exits with status `1 ≠ 0` when
the file is missing or its content is not valid JSON, and returns the parsed
mapping in every other case. -/
theorem C3_load_data_outcomes (json_path : String)
    (parseJson : String → Option Dataset) :
    load_data json_path ReadResult.fileNotFound parseJson =
      LoadOutcome.exited 1
        ["Error: Could not find file at " ++ json_path,
         "Please make sure the file exists or specify the correct path using --data"] ∧
    (∀ s, parseJson s = none →
      load_data json_path (ReadResult.content s) parseJson =
        LoadOutcome.exited 1
          ["Error: File at " ++ json_path ++ " is not a valid JSON file"]) ∧
    (∀ s d, parseJson s = some d →
      load_data json_path (ReadResult.content s) parseJson =
        LoadOutcome.ok d) ∧
    (1 : Nat) ≠ 0 := by
  refine ⟨rfl, ?_, ?_, by decide⟩
  · intro s h
    simp only [load_data, h]
  · intro s d h
    simp only [load_data, h]

/-- Witness for C3: a parser rejecting everything makes `load_data` exit
with status 1. -/
theorem C3_load_data_outcomes_witness :
    load_data "p" (ReadResult.content "x") (fun _ => none) =
      LoadOutcome.exited 1
        ["Error: File at " ++ "p" ++ " is not a valid JSON file"] :=
  (C3_load_data_outcomes "p" (fun _ => none)).2.1 "x" rfl

/-- C4: for a name absent from the mapping, `analyze_decades` returns `None`
with a not-found diagnostic instead of raising, and the whole run still
finishes with exit status `0` (after the `No decade data available`
message). -/
theorem C4_missing_director (data : Dataset) (name : String) (top_n : Int)
    (h : data.lookup name = none) :
    analyze_decades data name =
      (["Director " ++ name ++ " not found in data"], Except.ok none) ∧
    main_run data (some name) top_n =
      (["Director " ++ name ++ " not found in data",
        "No decade data available for " ++ name], Except.ok 0) := by
  have h1 : analyze_decades data name =
      (["Director " ++ name ++ " not found in data"], Except.ok none) := by
    simp only [analyze_decades, h]
  refine ⟨h1, ?_⟩
  simp only [main_run, h1]
  rfl

/-- Witness for C4: the empty dataset knows no director `"B"`. -/
theorem C4_missing_director_witness :
    main_run [] (some "B") 15 =
      (["Director " ++ "B" ++ " not found in data",
        "No decade data available for " ++ "B"], Except.ok 0) :=
  (C4_missing_director [] "B" 15 rfl).2

/-- C5: the descending sort of `analyze_directors` is stable — directors
with equal counts stay in the iteration (insertion) order of the mapping:
for each count value, sorting does not change the subsequence of entries
with that count, and the truncated output lists such entries as a prefix of
that subsequence. -/
theorem C5_equal_counts_keep_order (data : Dataset) (n : Int) (c : Int) :
    (List.insertionSort countGE (directorsList data)).filter
        (fun e => e.count == c) =
      (directorsList data).filter (fun e => e.count == c) ∧
    List.IsPrefix
      ((analyze_directors data n).filter (fun e => e.count == c))
      ((directorsList data).filter (fun e => e.count == c)) := by
  have H : ∀ a b : DirectorEntry, (a.count == c) = true → ¬ countGE a b →
      (b.count == c) = false := by
    intro a b ha hr
    have ha' : a.count = c := by simpa using ha
    simp only [countGE, not_le] at hr
    simp only [beq_eq_false_iff_ne, ne_eq]
    omega
  have h1 := filter_insertionSort_eq countGE (fun e => e.count == c) H
    (directorsList data)
  refine ⟨h1, ?_⟩
  rw [← h1]
  have hdef : analyze_directors data n =
      (List.insertionSort countGE (directorsList data)).take
        (if 0 ≤ n then n.toNat
         else (List.insertionSort countGE (directorsList data)).length -
           (-n).toNat) := rfl
  rw [hdef]
  exact ⟨((List.insertionSort countGE (directorsList data)).drop
      (if 0 ≤ n then n.toNat
       else (List.insertionSort countGE (directorsList data)).length -
         (-n).toNat)).filter (fun e => e.count == c),
    by rw [← List.filter_append, List.take_append_drop]⟩

/-- C6: `analyze_directors` is deterministic — two successive calls on the
same immutable store return identical outputs. -/
theorem C6_deterministic (data : Dataset) (n : Int) :
    ((analyze_directors_twice n).run data).1.1 =
      ((analyze_directors_twice n).run data).1.2 ∧
    analyze_directors data n = analyze_directors data n :=
  ⟨rfl, rfl⟩

/-- C7: on the spec's worked-example dataset, `analyze_directors` with
`n = 1` returns exactly the entry for `"A"` and `analyze_decades` returns
exactly the 1990 and 2000 buckets, in order. -/
theorem C7_worked_example :
    analyze_directors exData 1 =
      [{ name := "A", count := 5, avg_rating := 8.2 }] ∧
    analyze_decades exData "A" = ([], Except.ok (some
      [{ decade := "1990", count := 3, avg_rating := 8.0 },
       { decade := "2000", count := 2, avg_rating := 8.5 }])) :=
  ⟨rfl, rfl⟩

/-- C8: neither analyzer mutates the dataset: run against a store holding
the mapping, each call leaves the store unchanged and returns the value of
the corresponding pure function. -/
theorem C8_no_mutation (data : Dataset) (n : Int) (name : String) :
    ((analyze_directors_call n).run data).2 = data ∧
    ((analyze_decades_call name).run data).2 = data ∧
    ((analyze_directors_call n).run data).1 = analyze_directors data n ∧
    ((analyze_decades_call name).run data).1 = analyze_decades data name :=
  ⟨rfl, rfl, rfl, rfl⟩

/-- C9: with the named director present, `analyze_decades` returns a list
when every decade label is `"unknown"` or parseable as an integer, and
raises an uncaught `ValueError` when some label is neither. -/
theorem C9_decades_parse_totality (data : Dataset) (name : String)
    (dd : DirectorInfo) (hdd : data.lookup name = some dd) :
    ((∀ p ∈ dd.decades, p.1 = "unknown" ∨ (pyInt? p.1).isSome) →
      isOkSome (analyze_decades data name).2 = true) ∧
    (∀ p ∈ dd.decades, p.1 ≠ "unknown" → pyInt? p.1 = none →
      isError (analyze_decades data name).2 = true) := by
  constructor
  · intro h
    obtain ⟨out, hout⟩ := decadesLoop_ok_of_labels dd.decades h
    simp only [analyze_decades, hdd, hout, isOkSome]
  · intro p hp h1 h2
    obtain ⟨msg, hmsg⟩ := decadesLoop_error_of_bad dd.decades p hp h1 h2
    simp only [analyze_decades, hdd, hmsg, isError]

/-- Witness for C9: the worked example succeeds; the label `"19x0"` raises. -/
theorem C9_decades_parse_totality_witness :
    isOkSome (analyze_decades exData "A").2 = true ∧
    isError (analyze_decades badData "B").2 = true :=
  ⟨(C9_decades_parse_totality exData "A" exInfo rfl).1 (by decide),
   (C9_decades_parse_totality badData "B" badInfo rfl).2
     ("19x0", { count := 1, avg_rating := none }) (by decide) (by decide)
     (by decide)⟩

/-- C10: for negative `top_n` the slice `directors_list[:top_n]` keeps all
but the last `|top_n|` entries of the sorted qualifying list — it neither
rejects the argument nor returns an empty list by fiat, and the result's
length always exceeds `n`. -/
theorem C10_negative_top_n (data : Dataset) (n : Int) (hn : n < 0) :
    analyze_directors data n =
      dropLastN (List.insertionSort countGE (directorsList data)) (-n).toNat ∧
    n < ((analyze_directors data n).length : Int) := by
  have hres : analyze_directors data n =
      (List.insertionSort countGE (directorsList data)).take
        ((List.insertionSort countGE (directorsList data)).length -
          (-n).toNat) := by
    simp only [analyze_directors, pySlice, if_neg (show ¬ 0 ≤ n by omega)]
  constructor
  · rw [hres, dropLastN_eq_take]
  · omega

/-- Witness for C10 at the worked-example dataset with `n = -1`. -/
theorem C10_negative_top_n_witness :
    analyze_directors exData (-1) =
      dropLastN (List.insertionSort countGE (directorsList exData)) 1 :=
  (C10_negative_top_n exData (-1) (by decide)).1

end DirectorAnalysis
